import Mathlib

/-!
Verification of the clinical-extractor AI orchestration layer.

Part 1 models the provider fallback orchestrator, failure classifier,
rate limiter and payload-size gate described by the specification
(their implementation, app/services/llm.py and the AI router, is not
shipped under src/; only their tests are).

Part 2 embeds src/backend/app/services/file_search.py: the
FileSearchService upload / poll / query / citation-extraction logic.
-/

namespace ClinicalExtractor

/-- Normalized failure signal of a provider call, as the specification
classifies provider failures: throttling (429), transient server error
(5xx), quota exhaustion, malformed input, authentication failure,
payload rejection, or an unrecognized error. -/
inductive FailureSignal
  | throttled
  | serverError
  | quotaExhausted
  | malformedInput
  | authFailure
  | payloadRejected
  | unknown
deriving DecidableEq, Repr

/-- Classification of a provider failure: retryable triggers fallback,
fatal stops the orchestrator. -/
inductive FailureClass
  | retryable
  | fatal
deriving DecidableEq, Repr

/-- Modelled from the spec: the failure classification policy of the
Fallback Orchestrator (app/services/llm.py, absent from src/). A failure
is retryable if its message indicates throttling (HTTP 429 semantics),
transient server error (5xx semantics), or quota exhaustion; it is fatal
if it indicates malformed input, authentication failure, or payload
rejection; ambiguous or unrecognized errors are treated as fatal
(fail closed). -/
def classify : FailureSignal → FailureClass
  | .throttled => .retryable
  | .serverError => .retryable
  | .quotaExhausted => .retryable
  | .malformedInput => .fatal
  | .authFailure => .fatal
  | .payloadRejected => .fatal
  | .unknown => .fatal

/-- The outcome a single provider produces for one attempt of the
current operation (each provider performs exactly one attempt per call). -/
inductive ProviderResult
  | ok (text : String)
  | err (sig : FailureSignal)
deriving DecidableEq, Repr

/-- Terminal error surfaced by the orchestrator. -/
inductive TerminalError
  | fatalFailure (sig : FailureSignal)
  | allProvidersExhausted
deriving DecidableEq, Repr

/-- Result of running the fallback orchestrator. -/
inductive OrchestratorOutcome
  | success (text : String)
  | error (e : TerminalError)
deriving DecidableEq, Repr

/-- Modelled from the spec: the Fallback Orchestrator
(app/services/llm.py, absent from src/). Given the ordered list of
configured providers (primary first), attempt the operation against the
first; on a retryable failure advance to the next; on a fatal failure,
or after exhausting the list, surface a terminal failure. Returns the
outcome together with the number of provider calls observed. -/
def runFallback : List ProviderResult → OrchestratorOutcome × Nat
  | [] => (.error .allProvidersExhausted, 0)
  | .ok t :: _ => (.success t, 1)
  | .err sig :: rest =>
    match classify sig with
    | .fatal => (.error (.fatalFailure sig), 1)
    | .retryable =>
      let r := runFallback rest
      (r.1, r.2 + 1)

/-- The byte ceiling on payloads of size-limited operations. -/
def MAX_PAYLOAD_BYTES : Nat := 1048576

/-- Error taxonomy of the orchestration layer, as the specification
lists it for the caller-visible surface. -/
inductive PipelineError
  | payloadTooLarge
  | rateLimited
  | providerFatal (sig : FailureSignal)
  | allProvidersExhausted
  | parseFailure
deriving DecidableEq, Repr

/-- Modelled from the spec: the stable status signal attached to each
error class (413 payload too large, 429 rate limited, 500 provider
failure or all providers exhausted, 422 parse failure). -/
def statusCode : PipelineError → Nat
  | .payloadTooLarge => 413
  | .rateLimited => 429
  | .providerFatal _ => 500
  | .allProvidersExhausted => 500
  | .parseFailure => 422

/-- Modelled from the spec: a size-limited operation validates the
payload byte size against the fixed ceiling before any provider
dispatch; an oversized payload is rejected with PayloadTooLarge and no
provider is contacted. Returns the result together with the number of
provider calls observed. -/
def handleSizeLimited (payloadBytes : Nat) (providers : List ProviderResult) :
    Except PipelineError String × Nat :=
  if payloadBytes > MAX_PAYLOAD_BYTES then
    (.error .payloadTooLarge, 0)
  else
    match runFallback providers with
    | (.success t, n) => (.ok t, n)
    | (.error (.fatalFailure sig), n) => (.error (.providerFatal sig), n)
    | (.error .allProvidersExhausted, n) => (.error .allProvidersExhausted, n)

/-- Window capacity of the per-caller rate limiter (default 10). -/
def RATE_LIMIT_CAPACITY : Nat := 10

/-- Window duration of the per-caller rate limiter, in seconds (default 60). -/
def RATE_WINDOW_SECONDS : Nat := 60

/-- Per-caller sliding windows of recorded request timestamps, keyed by
caller identity. -/
structure RLState where
  windows : List (String × List Nat)
deriving DecidableEq, Repr

/-- Count of recorded timestamps that fall within the trailing window of
duration RATE_WINDOW_SECONDS ending at the current time. -/
def recentCount (ts : List Nat) (now : Nat) : Nat :=
  (ts.filter (fun t => now < t + RATE_WINDOW_SECONDS)).length

/-- The recorded window of one caller (empty if the caller has none). -/
def getWindow (st : RLState) (caller : String) : List Nat :=
  (st.windows.lookup caller).getD []

/-- Replace the recorded window of one caller. -/
def setWindow (st : RLState) (caller : String) (ts : List Nat) : RLState :=
  ⟨(caller, ts) :: st.windows.filter (fun p => p.1 ≠ caller)⟩

/-- Modelled from the spec: the Rate Limiter admission check
(app/services/llm.py rate limiting, absent from src/). A call is
admitted iff the count of the caller timestamps within the trailing
window duration is below the configured capacity; an admitted call
records its timestamp, a rejected call leaves the window unchanged. -/
def admission (st : RLState) (caller : String) (now : Nat) : Bool × RLState :=
  let ts := getWindow st caller
  if recentCount ts now < RATE_LIMIT_CAPACITY then
    (true, setWindow st caller (now :: ts))
  else
    (false, st)

/-- Run a sequence of admission checks for one caller at the given
times, returning the list of admission decisions. -/
def admissionRun (st : RLState) (caller : String) : List Nat → List Bool
  | [] => []
  | t :: rest =>
    let r := admission st caller t
    r.1 :: admissionRun r.2 caller rest

/-! ## Part 2: embedding of src/backend/app/services/file_search.py -/

/-- A remote long-running operation handle; the service only ever
inspects its done flag. -/
structure Operation where
  done : Bool
deriving DecidableEq, Repr

/-- State of a FileSearchService instance: whether a client was
configured (self.client is not None) and the document-id to store-name
mapping (self.store_mappings; lookup takes the most recent binding,
matching dict assignment). -/
structure FSState where
  hasClient : Bool
  store_mappings : List (String × String)
deriving DecidableEq, Repr

/-- Environment of one upload_pdf_to_file_search call: the outcomes the
remote side (and the base64 decoder) would produce.  decodeResult is
indexed by the string handed to the decoder, poll by the number of
completed poll iterations. -/
structure UploadEnv where
  decodeResult : String → Except String Unit
  createStore : Except String String
  startUpload : Except String Operation
  poll : Nat → Except String Operation

/-- Successful return value of upload_pdf_to_file_search. -/
structure UploadSuccess where
  file_search_store_id : String
  message : String
deriving DecidableEq, Repr

/-- Full observable outcome of one upload_pdf_to_file_search call:
its return-or-raise result, the service state after the call, and
whether the temporary file was created and deleted during the call. -/
structure UploadOutcome where
  result : Except String UploadSuccess
  state : FSState
  tempCreated : Bool
  tempDeleted : Bool
deriving Repr

/-- Message raised when no File Search client is configured. -/
def unavailableMsg : String :=
  "File Search API not available. Install google-genai package for this feature."

/-- The wrapping applied by the except clause of
upload_pdf_to_file_search. -/
def uploadWrap (m : String) : String :=
  "Failed to upload PDF to File Search: " ++ m

/-- Result of the polling loop: the final operation handle, the final
elapsed value, and the number of operations.get calls performed. -/
structure PollEnd where
  op : Operation
  elapsed : Nat
  polls : Nat
deriving DecidableEq, Repr

/-- The polling loop of upload_pdf_to_file_search:
while not operation.done and elapsed < 60: sleep 5; operation =
operations.get(operation); elapsed += 5.  An error of a get call
propagates. -/
def pollLoop (poll : Nat → Except String Operation) (op : Operation)
    (elapsed : Nat) (k : Nat) : Except String PollEnd :=
  if elapsed < 60 ∧ op.done = false then
    match poll k with
    | .error m => .error m
    | .ok op2 => pollLoop poll op2 (elapsed + 5) (k + 1)
  else
    .ok ⟨op, elapsed, k⟩
termination_by 60 - elapsed
decreasing_by omega

/-- Split a character list on commas, keeping empty fields, matching
the Python str.split behaviour on a single-character separator. -/
def splitOnComma : List Char → List (List Char)
  | [] => [[]]
  | c :: rest =>
    let r := splitOnComma rest
    if c = ',' then [] :: r
    else
      match r with
      | f :: t => (c :: f) :: t
      | [] => [[c]]

/-- The string handed to base64.b64decode: the second comma-separated
field when the input holds a comma (a data URI), the whole input
otherwise. -/
def base64Body (pdf_base64 : String) : String :=
  let parts := splitOnComma pdf_base64.data
  if 2 ≤ parts.length then
    String.mk ((parts.drop 1).headD [])
  else
    pdf_base64

/-- upload_pdf_to_file_search (src/backend/app/services/file_search.py,
lines 45-108): raise if no client; decode the base64 payload; write a
temporary file; create a store; start the upload; poll the operation up
to 60 seconds in 5 second steps; delete the temporary file; raise on
timeout; otherwise record the store mapping and return.  Every failure
inside the try block is re-raised wrapped by uploadWrap. -/
def upload_pdf_to_file_search (st : FSState) (env : UploadEnv)
    (document_id pdf_base64 filename : String) : UploadOutcome :=
  if st.hasClient = false then
    ⟨.error unavailableMsg, st, false, false⟩
  else
    match env.decodeResult (base64Body pdf_base64) with
    | .error m => ⟨.error (uploadWrap m), st, false, false⟩
    | .ok _ =>
      match env.createStore with
      | .error m => ⟨.error (uploadWrap m), st, true, false⟩
      | .ok storeName =>
        match env.startUpload with
        | .error m => ⟨.error (uploadWrap m), st, true, false⟩
        | .ok op0 =>
          match pollLoop env.poll op0 0 0 with
          | .error m => ⟨.error (uploadWrap m), st, true, false⟩
          | .ok pe =>
            if pe.op.done = false then
              ⟨.error (uploadWrap "File upload timed out after 60 seconds"),
               st, true, true⟩
            else
              ⟨.ok ⟨storeName, "PDF uploaded successfully to File Search store"⟩,
               ⟨st.hasClient, (document_id, storeName) :: st.store_mappings⟩,
               true, true⟩

/-- get_store_id: the store name recorded for a document, when any. -/
def get_store_id (st : FSState) (document_id : String) : Option String :=
  st.store_mappings.lookup document_id

/-- A grounding segment; the text field is absent when the object does
not expose a text attribute. -/
structure Segment where
  text : Option String
deriving DecidableEq, Repr

/-- A grounding chunk; page_number is absent when the chunk exposes no
page_number attribute. -/
structure Chunk where
  page_number : Option Nat
deriving DecidableEq, Repr

/-- A grounding support; each Option field is none when the attribute is
absent (for grounding_chunk_indices, also matched against emptiness by
the code, via Python truthiness). -/
structure Support where
  segment : Option Segment
  grounding_chunk_indices : Option (List Nat)
deriving DecidableEq, Repr

/-- Grounding metadata of a candidate. -/
structure GroundingMetadata where
  grounding_supports : Option (List Support)
  grounding_chunks : Option (List Chunk)
deriving DecidableEq, Repr

/-- One response candidate. -/
structure Candidate where
  grounding_metadata : Option GroundingMetadata
deriving DecidableEq, Repr

/-- A generate_content response: its text (none models a missing or
None text) and its candidates list (none models a missing attribute). -/
structure GenResponse where
  text : Option String
  candidates : Option (List Candidate)
deriving DecidableEq, Repr

/-- A citation record produced by query_with_citations. -/
structure Citation where
  text : String
  page_number : Option Nat
  confidence : ℚ
deriving DecidableEq, Repr

/-- Environment of one query_with_citations call: the response the
generate_content call would produce, indexed by the store id and the
query string. -/
structure QueryEnv where
  generate : String → String → Except String GenResponse

/-- Successful return value of query_with_citations. -/
structure QuerySuccess where
  document_id : String
  answer : String
  citations : List Citation
deriving DecidableEq, Repr

/-- The citation the loop body of query_with_citations builds for one
grounding support (none when the support exposes no segment): the cited
text is the segment text or empty; the page number is read from the
chunk at the first chunk index when that index is in range of the chunk
list and the chunk exposes a page attribute; the confidence is the
fixed default 0.95. -/
def citationOfSupport (metadata : GroundingMetadata) (support : Support) :
    Option Citation :=
  match support.segment with
  | none => none
  | some segment =>
    let cited_text := match segment.text with
      | some t => t
      | none => ""
    let page_num : Option Nat :=
      match support.grounding_chunk_indices with
      | some (chunk_idx :: _) =>
        match metadata.grounding_chunks with
        | some chunks =>
          if h : chunk_idx < chunks.length then
            (chunks.get ⟨chunk_idx, h⟩).page_number
          else
            none
        | none => none
      | _ => none
    some ⟨cited_text, page_num, 0.95⟩

/-- The citation list query_with_citations extracts from a response:
the first candidate of a non-empty candidate list, its grounding
metadata when present, one citation per grounding support that exposes
a segment. -/
def extractCitations (resp : GenResponse) : List Citation :=
  match resp.candidates with
  | some (candidate :: _) =>
    match candidate.grounding_metadata with
    | some metadata =>
      match metadata.grounding_supports with
      | some supports => supports.filterMap (citationOfSupport metadata)
      | none => []
    | none => []
  | _ => []

/-- The answer text: the response text unless it is missing or empty
(Python truthiness), in which case the literal placeholder is used. -/
def answerText : Option String → String
  | some s => if s = "" then "No answer generated" else s
  | none => "No answer generated"

/-- query_with_citations (src/backend/app/services/file_search.py,
lines 110-188): raise if no client; issue one grounded generate_content
call scoped to the store; build the answer text and the citation list.
A failure of the remote call is re-raised wrapped. -/
def query_with_citations (st : FSState) (env : QueryEnv)
    (document_id file_search_store_id query : String) :
    Except String QuerySuccess :=
  if st.hasClient = false then
    .error unavailableMsg
  else
    match env.generate file_search_store_id query with
    | .error m => .error ("Failed to query with citations: " ++ m)
    | .ok resp =>
      .ok ⟨document_id, answerText resp.text, extractCitations resp⟩

/-- Follows the wording of the specification, for comparison with
citationOfSupport: the cited text is the segment text; the page number
is obtained by following the first chunk index of the support into the
metadata chunk list and reading the page attribute if the chunk exposes
one; no chunk indices, an out-of-range index, an absent chunk list or
an absent page attribute all yield a null page number; confidence is
the fixed default. -/
def specCitationOfSupport (metadata : GroundingMetadata) (support : Support) :
    Option Citation :=
  support.segment.map (fun segment =>
    { text := segment.text.getD ""
      page_number := do
        let idxs ← support.grounding_chunk_indices
        let idx ← idxs.head?
        let chunks ← metadata.grounding_chunks
        let chunk ← chunks[idx]?
        chunk.page_number
      confidence := 0.95 })

/-- C6 counterexample environment: the remote store-creation call fails
after the temporary file has been created. -/
def c6Env : UploadEnv :=
  ⟨fun _ => .ok (), .error "network unreachable", .ok ⟨true⟩, fun _ => .ok ⟨true⟩⟩

/-! ## Theorems -/

/-- C1: if the primary provider returns a retryable failure and the
secondary provider succeeds, the final result equals the secondary
provider output and exactly two provider calls are observed, the
orchestrator attempting providers strictly sequentially in fixed
priority order. -/
theorem fallback_retryable_then_secondary (sig : FailureSignal) (t : String)
    (rest : List ProviderResult) (h : classify sig = .retryable) :
    runFallback (.err sig :: .ok t :: rest) = (.success t, 2) := by
  simp [runFallback, h]

theorem fallback_retryable_then_secondary_witness :
    runFallback (.err .throttled :: .ok "summary from secondary" :: []) =
      (.success "summary from secondary", 2) :=
  fallback_retryable_then_secondary .throttled "summary from secondary" [] rfl

/-- C2: if the primary provider returns a fatal failure (or an
unrecognized error, which is classified fatal), no secondary call is
attempted (exactly one provider call) and the surfaced terminal error is
the fatal failure, which is distinct from the all-providers-exhausted
error. -/
theorem fallback_fatal_stops (sig : FailureSignal) (rest : List ProviderResult)
    (h : classify sig = .fatal) :
    runFallback (.err sig :: rest) = (.error (.fatalFailure sig), 1) ∧
    TerminalError.fatalFailure sig ≠ TerminalError.allProvidersExhausted ∧
    classify .unknown = .fatal := by
  refine ⟨by simp [runFallback, h], by simp, rfl⟩

theorem fallback_fatal_stops_witness :
    runFallback (.err .authFailure :: .ok "never reached" :: []) =
      (.error (.fatalFailure .authFailure), 1) :=
  (fallback_fatal_stops .authFailure [.ok "never reached"] rfl).1

/-- C4: every payload strictly larger than 1,048,576 bytes is rejected
by a size-limited operation with the PayloadTooLarge error (status 413)
with zero provider calls observed, for any configured providers. -/
theorem size_gate_rejects_before_dispatch (payloadBytes : Nat)
    (providers : List ProviderResult) (h : payloadBytes > 1048576) :
    handleSizeLimited payloadBytes providers = (.error .payloadTooLarge, 0) ∧
    statusCode .payloadTooLarge = 413 := by
  refine ⟨?_, rfl⟩
  have hgt : payloadBytes > MAX_PAYLOAD_BYTES := h
  simp [handleSizeLimited, hgt]

theorem size_gate_rejects_before_dispatch_witness :
    handleSizeLimited 1100000 [.ok "unreached provider answer"] =
      (.error .payloadTooLarge, 0) :=
  (size_gate_rejects_before_dispatch 1100000 [.ok "unreached provider answer"]
    (by decide)).1

/-- C3: the per-caller sliding window with capacity 10 and duration
60s: a call is admitted iff fewer than 10 timestamps of that caller lie
in the trailing 60s window; a rejected call records no timestamp (the
state is unchanged); from an empty window, 10 calls at one instant are
admitted, the 11th is rejected, and a call 60s later is admitted again;
rejection carries the 429 status, distinct from the provider-failure and
parse-failure statuses. -/
theorem rate_limiter_sliding_window :
    (∀ st caller now, (admission st caller now).1 = false →
      (admission st caller now).2 = st) ∧
    (∀ st caller now, (admission st caller now).1 = true ↔
      recentCount (getWindow st caller) now < RATE_LIMIT_CAPACITY) ∧
    admissionRun ⟨[]⟩ "u" (List.replicate 11 0 ++ [60]) =
      List.replicate 10 true ++ [false, true] ∧
    statusCode .rateLimited = 429 ∧
    statusCode .parseFailure ≠ 429 ∧
    statusCode .allProvidersExhausted ≠ 429 ∧
    (∀ sig, statusCode (.providerFatal sig) ≠ 429) := by
  refine ⟨?_, ?_, by decide, rfl, by decide, by decide, fun sig => by cases sig <;> decide⟩
  · intro st caller now h
    by_cases hc : recentCount (getWindow st caller) now < RATE_LIMIT_CAPACITY
    · simp [admission, hc] at h
    · simp [admission, hc]
  · intro st caller now
    by_cases hc : recentCount (getWindow st caller) now < RATE_LIMIT_CAPACITY
    · simp [admission, hc]
    · simp [admission, hc]

theorem rate_limiter_sliding_window_witness :
    (admission ⟨[("u", List.replicate 10 0)]⟩ "u" 0).2 =
      ⟨[("u", List.replicate 10 0)]⟩ :=
  rate_limiter_sliding_window.1 ⟨[("u", List.replicate 10 0)]⟩ "u" 0 (by decide)

/-- Helper: when every poll returns a not-done operation, the loop runs
to the wait ceiling: starting from a not-done operation with
60 - elapsed = n, it performs (n + 4) / 5 further polls and stops with a
not-done operation. -/
theorem pollLoop_never_done (poll : Nat → Except String Operation)
    (hp : ∀ k, ∃ op, poll k = .ok op ∧ op.done = false) :
    ∀ n elapsed k op0, 60 - elapsed = n → op0.done = false →
      ∃ opF, pollLoop poll op0 elapsed k =
          .ok ⟨opF, elapsed + 5 * ((n + 4) / 5), k + (n + 4) / 5⟩ ∧
        opF.done = false := by
  intro n
  induction n using Nat.strong_induction_on with
  | _ n ih =>
    intro elapsed k op0 hn hdone
    by_cases he : elapsed < 60
    · obtain ⟨op1, hop1, hop1d⟩ := hp k
      obtain ⟨opF, hF, hFd⟩ := ih (n - 5) (by omega) (elapsed + 5) (k + 1) op1
        (by omega) hop1d
      refine ⟨opF, ?_, hFd⟩
      unfold pollLoop
      rw [if_pos ⟨he, hdone⟩, hop1]
      dsimp only
      have e1 : elapsed + 5 + 5 * ((n - 5 + 4) / 5) =
          elapsed + 5 * ((n + 4) / 5) := by omega
      have e2 : k + 1 + (n - 5 + 4) / 5 = k + (n + 4) / 5 := by omega
      rw [hF, e1, e2]
    · refine ⟨op0, ?_, hdone⟩
      have hn0 : n = 0 := by omega
      subst hn0
      unfold pollLoop
      rw [if_neg (fun hcon => he hcon.1)]
      simp

/-- Helper: a call of upload_pdf_to_file_search whose result is an
error leaves the service state unchanged. -/
theorem upload_error_keeps_state {st : FSState} {env : UploadEnv}
    {d p f m : String}
    (h : (upload_pdf_to_file_search st env d p f).result = .error m) :
    (upload_pdf_to_file_search st env d p f).state = st := by
  unfold upload_pdf_to_file_search at h ⊢
  by_cases hcl : st.hasClient = false
  · simp [hcl]
  · cases hd : env.decodeResult (base64Body p) with
    | error me => simp [hcl, hd]
    | ok u =>
      cases u
      cases hc : env.createStore with
      | error me => simp [hcl, hd, hc]
      | ok nm =>
        cases hu : env.startUpload with
        | error me => simp [hcl, hd, hc, hu]
        | ok op0 =>
          cases hpl : pollLoop env.poll op0 0 0 with
          | error me => simp [hcl, hd, hc, hu, hpl]
          | ok pe =>
            by_cases hdone : pe.op.done = false
            · simp [hcl, hd, hc, hu, hpl, hdone]
            · simp [hcl, hd, hc, hu, hpl, hdone] at h

/-- Helper: the full outcome of an upload whose polls never report a
done operation: the wrapped timeout error, unchanged state, and a
temporary file that was created and deleted. -/
theorem upload_timeout_run {st : FSState} {env : UploadEnv}
    {d p f storeName : String} {op0 : Operation}
    (hcl : st.hasClient = true)
    (hdec : env.decodeResult (base64Body p) = .ok ())
    (hcs : env.createStore = .ok storeName)
    (hsu : env.startUpload = .ok op0)
    (hd0 : op0.done = false)
    (hp : ∀ k, ∃ op, env.poll k = .ok op ∧ op.done = false) :
    upload_pdf_to_file_search st env d p f =
      ⟨.error (uploadWrap "File upload timed out after 60 seconds"),
       st, true, true⟩ := by
  obtain ⟨opF, hF, hFd⟩ := pollLoop_never_done env.poll hp 60 0 0 op0 rfl hd0
  unfold upload_pdf_to_file_search
  rw [hcl]
  simp only [Bool.true_eq_false, if_false, hdec, hcs, hsu, hF, hFd]
  simp

/-- C5: a registration that fails records no store mapping: (1) any
erroring upload leaves the state unchanged, and for a document with no
prior mapping a subsequent get_store_id returns none; (2) when the
operation never reports done, the loop polls exactly 12 times, 5
seconds apart, up to the 60 second ceiling; (3) such a run raises the
wrapped timeout error. -/
theorem upload_failure_records_no_mapping :
    (∀ st env d p f m, st.store_mappings.lookup d = none →
      (upload_pdf_to_file_search st env d p f).result = .error m →
        (upload_pdf_to_file_search st env d p f).state = st ∧
        get_store_id (upload_pdf_to_file_search st env d p f).state d = none) ∧
    (∀ poll op0, op0.done = false →
      (∀ k, ∃ op, poll k = .ok op ∧ op.done = false) →
        ∃ opF, pollLoop poll op0 0 0 = .ok ⟨opF, 60, 12⟩ ∧ opF.done = false) ∧
    (∀ st env d p f storeName op0, st.hasClient = true →
      env.decodeResult (base64Body p) = .ok () →
      env.createStore = .ok storeName →
      env.startUpload = .ok op0 → op0.done = false →
      (∀ k, ∃ op, env.poll k = .ok op ∧ op.done = false) →
        (upload_pdf_to_file_search st env d p f).result =
          .error (uploadWrap "File upload timed out after 60 seconds")) := by
  refine ⟨?_, ?_, ?_⟩
  · intro st env d p f m hnone herr
    have hst := upload_error_keeps_state herr
    refine ⟨hst, ?_⟩
    rw [hst]
    exact hnone
  · intro poll op0 hd0 hp
    exact pollLoop_never_done poll hp 60 0 0 op0 rfl hd0
  · intro st env d p f storeName op0 hcl hdec hcs hsu hd0 hp
    rw [upload_timeout_run hcl hdec hcs hsu hd0 hp]

theorem upload_failure_records_no_mapping_witness :
    (upload_pdf_to_file_search ⟨true, []⟩
        ⟨fun _ => .ok (), .ok "store1", .ok ⟨false⟩, fun _ => .ok ⟨false⟩⟩
        "doc" "QUJD" "a.pdf").result =
      .error (uploadWrap "File upload timed out after 60 seconds") :=
  upload_failure_records_no_mapping.2.2 ⟨true, []⟩
    ⟨fun _ => .ok (), .ok "store1", .ok ⟨false⟩, fun _ => .ok ⟨false⟩⟩
    "doc" "QUJD" "a.pdf" "store1" ⟨false⟩ rfl rfl rfl rfl rfl
    (fun _ => ⟨⟨false⟩, rfl, rfl⟩)

/-- C6 counterexample: a remote-call error after the temporary file is
created (the store-creation call fails) returns with the temporary file
created but not deleted, refuting the claim that every non-recording
execution releases the temporary file. -/
theorem upload_remote_error_leaks_temp_cex :
    (upload_pdf_to_file_search ⟨true, []⟩ c6Env "doc1" "QUJD" "a.pdf").tempCreated
        = true ∧
    (upload_pdf_to_file_search ⟨true, []⟩ c6Env "doc1" "QUJD" "a.pdf").tempDeleted
        = false ∧
    (upload_pdf_to_file_search ⟨true, []⟩ c6Env "doc1" "QUJD" "a.pdf").result
        = .error (uploadWrap "network unreachable") ∧
    (upload_pdf_to_file_search ⟨true, []⟩ c6Env "doc1" "QUJD" "a.pdf").state
        = ⟨true, []⟩ :=
  ⟨rfl, rfl, rfl, rfl⟩

/-- C6 amended: the timeout path releases the temporary file (created
and deleted, with the wrapped timeout error raised), while a remote
store-creation error after the temporary file is created leaves the
file undeleted. -/
theorem upload_timeout_releases_temp :
    (∀ st env d p f storeName op0, st.hasClient = true →
      env.decodeResult (base64Body p) = .ok () →
      env.createStore = .ok storeName →
      env.startUpload = .ok op0 → op0.done = false →
      (∀ k, ∃ op, env.poll k = .ok op ∧ op.done = false) →
        (upload_pdf_to_file_search st env d p f).tempCreated = true ∧
        (upload_pdf_to_file_search st env d p f).tempDeleted = true ∧
        (upload_pdf_to_file_search st env d p f).result =
          .error (uploadWrap "File upload timed out after 60 seconds")) ∧
    (∀ st env d p f m, st.hasClient = true →
      env.decodeResult (base64Body p) = .ok () →
      env.createStore = .error m →
        (upload_pdf_to_file_search st env d p f).tempCreated = true ∧
        (upload_pdf_to_file_search st env d p f).tempDeleted = false) := by
  constructor
  · intro st env d p f storeName op0 hcl hdec hcs hsu hd0 hp
    rw [upload_timeout_run hcl hdec hcs hsu hd0 hp]
    exact ⟨rfl, rfl, rfl⟩
  · intro st env d p f m hcl hdec hcs
    unfold upload_pdf_to_file_search
    rw [hcl]
    simp only [Bool.true_eq_false, if_false, hdec, hcs]
    simp

theorem upload_timeout_releases_temp_witness :
    (upload_pdf_to_file_search ⟨true, []⟩
        ⟨fun _ => .ok (), .ok "store2", .ok ⟨false⟩, fun _ => .ok ⟨false⟩⟩
        "doc2" "QUJD" "b.pdf").tempDeleted = true :=
  (upload_timeout_releases_temp.1 ⟨true, []⟩
    ⟨fun _ => .ok (), .ok "store2", .ok ⟨false⟩, fun _ => .ok ⟨false⟩⟩
    "doc2" "QUJD" "b.pdf" "store2" ⟨false⟩ rfl rfl rfl rfl rfl
    (fun _ => ⟨⟨false⟩, rfl, rfl⟩)).2.1

/-- Helper: every citation the support loop emits carries the fixed
confidence 0.95. -/
theorem confidence_of_citationOfSupport {metadata : GroundingMetadata}
    {support : Support} {c : Citation}
    (h : citationOfSupport metadata support = some c) :
    c.confidence = 0.95 := by
  unfold citationOfSupport at h
  cases hs : support.segment with
  | none => rw [hs] at h; exact absurd h (by simp)
  | some seg =>
    rw [hs] at h
    simp only [Option.some.injEq] at h
    rw [← h]

/-- Helper: every citation extracted from a response carries the fixed
confidence 0.95. -/
theorem confidence_of_extractCitations {resp : GenResponse} {c : Citation}
    (h : c ∈ extractCitations resp) : c.confidence = 0.95 := by
  unfold extractCitations at h
  cases hcand : resp.candidates with
  | none => rw [hcand] at h; simp at h
  | some cl =>
    rw [hcand] at h
    cases cl with
    | nil => simp at h
    | cons cand rest =>
      dsimp only at h
      cases hmd : cand.grounding_metadata with
      | none => rw [hmd] at h; simp at h
      | some metadata =>
        rw [hmd] at h
        dsimp only at h
        cases hsup : metadata.grounding_supports with
        | none => rw [hsup] at h; simp at h
        | some supports =>
          rw [hsup] at h
          simp only [List.mem_filterMap] at h
          obtain ⟨s, _, hcs⟩ := h
          exact confidence_of_citationOfSupport hcs

/-- C7: every citation produced by query_with_citations has confidence
equal to the fixed constant 0.95, whatever the provider response. -/
theorem citation_confidence_fixed (st : FSState) (env : QueryEnv)
    (d fsid q : String) (r : QuerySuccess)
    (h : query_with_citations st env d fsid q = .ok r) :
    ∀ c ∈ r.citations, c.confidence = 0.95 := by
  intro c hc
  unfold query_with_citations at h
  by_cases hcl : st.hasClient = false
  · rw [if_pos hcl] at h; exact absurd h (by simp)
  · rw [if_neg hcl] at h
    cases hg : env.generate fsid q with
    | error m => rw [hg] at h; exact absurd h (by simp)
    | ok resp =>
      rw [hg] at h
      simp only [Except.ok.injEq] at h
      rw [← h] at hc
      exact confidence_of_extractCitations hc

theorem citation_confidence_fixed_witness :
    (⟨"cited span", some 3, 0.95⟩ : Citation).confidence = 0.95 :=
  citation_confidence_fixed ⟨true, []⟩
    ⟨fun _ _ => .ok ⟨some "an answer",
      some [⟨some ⟨some [⟨some ⟨some "cited span"⟩, some [0]⟩],
             some [⟨some 3⟩]⟩⟩]⟩⟩
    "d" "s" "q"
    ⟨"d", "an answer", [⟨"cited span", some 3, 0.95⟩]⟩ rfl
    ⟨"cited span", some 3, 0.95⟩ (List.mem_singleton.mpr rfl)

/-- Helper: the citation the code builds for one support coincides with
the citation described by the specification wording. -/
theorem citationOfSupport_eq_spec (metadata : GroundingMetadata)
    (support : Support) :
    citationOfSupport metadata support = specCitationOfSupport metadata support := by
  unfold citationOfSupport specCitationOfSupport
  cases hseg : support.segment with
  | none => rfl
  | some seg =>
    cases hidx : support.grounding_chunk_indices with
    | none => cases ht : seg.text <;> simp [ht]
    | some idxs =>
      cases idxs with
      | nil => cases ht : seg.text <;> simp [ht]
      | cons i tl =>
        cases hch : metadata.grounding_chunks with
        | none => cases ht : seg.text <;> simp [ht]
        | some chunks =>
          by_cases hlt : i < chunks.length
          · cases ht : seg.text <;>
              simp [ht, hlt, List.getElem?_eq_getElem, Option.bind]
          · cases ht : seg.text <;>
              simp [ht, hlt, List.getElem?_eq_none, Option.bind,
                Nat.le_of_not_lt]

/-- C8: when the response carries grounding metadata with a support
list, the query succeeds and emits, per support exposing a segment, one
citation whose text is the segment text and whose page number follows
the first chunk index into the chunk list, reading the page attribute
when exposed and yielding none otherwise — the list the specification
wording describes. -/
theorem citations_follow_grounding (st : FSState) (env : QueryEnv)
    (d fsid q : String) (resp : GenResponse) (cand : Candidate)
    (rest : List Candidate) (metadata : GroundingMetadata)
    (supports : List Support)
    (hcl : st.hasClient = true)
    (hg : env.generate fsid q = .ok resp)
    (hcand : resp.candidates = some (cand :: rest))
    (hmd : cand.grounding_metadata = some metadata)
    (hsup : metadata.grounding_supports = some supports) :
    query_with_citations st env d fsid q =
      .ok ⟨d, answerText resp.text,
           supports.filterMap (specCitationOfSupport metadata)⟩ := by
  unfold query_with_citations
  rw [hcl]
  simp only [Bool.true_eq_false, if_false, hg]
  have hext : extractCitations resp =
      supports.filterMap (specCitationOfSupport metadata) := by
    unfold extractCitations
    rw [hcand]
    dsimp only
    rw [hmd]
    dsimp only
    rw [hsup]
    have hfun : citationOfSupport metadata = specCitationOfSupport metadata :=
      funext (citationOfSupport_eq_spec metadata)
    rw [hfun]
  rw [hext]

theorem citations_follow_grounding_witness :
    query_with_citations ⟨true, []⟩
      ⟨fun _ _ => .ok ⟨some "grounded answer",
        some [⟨some ⟨some [⟨some ⟨some "quoted text"⟩, some [1]⟩,
                           ⟨some ⟨some "pageless"⟩, some [5]⟩,
                           ⟨none, some [0]⟩],
               some [⟨none⟩, ⟨some 7⟩]⟩⟩]⟩⟩
      "docW" "storeW" "question" =
    .ok ⟨"docW", "grounded answer",
         [⟨"quoted text", some 7, 0.95⟩, ⟨"pageless", none, 0.95⟩]⟩ := by
  rw [citations_follow_grounding ⟨true, []⟩
    ⟨fun _ _ => .ok ⟨some "grounded answer",
      some [⟨some ⟨some [⟨some ⟨some "quoted text"⟩, some [1]⟩,
                         ⟨some ⟨some "pageless"⟩, some [5]⟩,
                         ⟨none, some [0]⟩],
             some [⟨none⟩, ⟨some 7⟩]⟩⟩]⟩⟩
    "docW" "storeW" "question"
    ⟨some "grounded answer",
      some [⟨some ⟨some [⟨some ⟨some "quoted text"⟩, some [1]⟩,
                         ⟨some ⟨some "pageless"⟩, some [5]⟩,
                         ⟨none, some [0]⟩],
             some [⟨none⟩, ⟨some 7⟩]⟩⟩]⟩
    ⟨some ⟨some [⟨some ⟨some "quoted text"⟩, some [1]⟩,
                 ⟨some ⟨some "pageless"⟩, some [5]⟩,
                 ⟨none, some [0]⟩],
           some [⟨none⟩, ⟨some 7⟩]⟩⟩
    []
    ⟨some [⟨some ⟨some "quoted text"⟩, some [1]⟩,
           ⟨some ⟨some "pageless"⟩, some [5]⟩,
           ⟨none, some [0]⟩],
      some [⟨none⟩, ⟨some 7⟩]⟩
    [⟨some ⟨some "quoted text"⟩, some [1]⟩,
     ⟨some ⟨some "pageless"⟩, some [5]⟩,
     ⟨none, some [0]⟩]
    rfl rfl rfl rfl rfl]
  rfl

/-- C9: with no configured client, upload_pdf_to_file_search and
query_with_citations both fail fast with the unavailability error, the
state is unchanged, no temporary file is touched, and the outcome does
not depend on the remote environment at all (no remote work is
attempted). -/
theorem no_client_fails_fast (st : FSState) (h : st.hasClient = false)
    (envU envU2 : UploadEnv) (envQ envQ2 : QueryEnv)
    (d p f fsid q : String) :
    upload_pdf_to_file_search st envU d p f =
      ⟨.error unavailableMsg, st, false, false⟩ ∧
    upload_pdf_to_file_search st envU d p f =
      upload_pdf_to_file_search st envU2 d p f ∧
    query_with_citations st envQ d fsid q = .error unavailableMsg ∧
    query_with_citations st envQ d fsid q =
      query_with_citations st envQ2 d fsid q := by
  refine ⟨?_, ?_, ?_, ?_⟩ <;>
    simp [upload_pdf_to_file_search, query_with_citations, h]

theorem no_client_fails_fast_witness :
    upload_pdf_to_file_search ⟨false, []⟩
        ⟨fun _ => .ok (), .ok "s", .ok ⟨true⟩, fun _ => .ok ⟨true⟩⟩
        "d" "p" "f" =
      ⟨.error unavailableMsg, ⟨false, []⟩, false, false⟩ :=
  (no_client_fails_fast ⟨false, []⟩ rfl
    ⟨fun _ => .ok (), .ok "s", .ok ⟨true⟩, fun _ => .ok ⟨true⟩⟩
    ⟨fun _ => .error "other", .error "other", .error "other", fun _ => .error "other"⟩
    ⟨fun _ _ => .ok ⟨none, none⟩⟩ ⟨fun _ _ => .error "other"⟩
    "d" "p" "f" "s" "q").1

/-- C10: when the provider answer text is missing or empty, the query
still succeeds and returns the literal placeholder string as the
answer, with whatever citations were extracted. -/
theorem empty_answer_placeholder (st : FSState) (env : QueryEnv)
    (d fsid q : String) (resp : GenResponse)
    (hcl : st.hasClient = true)
    (hg : env.generate fsid q = .ok resp)
    (ht : resp.text = none ∨ resp.text = some "") :
    query_with_citations st env d fsid q =
      .ok ⟨d, "No answer generated", extractCitations resp⟩ := by
  unfold query_with_citations
  rw [hcl]
  simp only [Bool.true_eq_false, if_false, hg]
  rcases ht with h | h <;> rw [h] <;> rfl

theorem empty_answer_placeholder_witness :
    query_with_citations ⟨true, []⟩ ⟨fun _ _ => .ok ⟨some "", none⟩⟩
        "docE" "storeE" "qE" =
      .ok ⟨"docE", "No answer generated", []⟩ :=
  empty_answer_placeholder ⟨true, []⟩ ⟨fun _ _ => .ok ⟨some "", none⟩⟩
    "docE" "storeE" "qE" ⟨some "", none⟩ rfl rfl (Or.inr rfl)

end ClinicalExtractor
